import Mathlib

/-!
Shallow embedding of the airport flight-network visualization
(src/datavis-3/src/App.tsx): dataset construction (airports, flight
totals, links), the force-set switching effect, the drag handlers, and a
model of the force-simulation integration step described by the
specification for the embedded d3-force library.
-/

namespace DataVis

/-- Raw airport row as read from airports.csv: latitude and longitude are
still strings, coerced with Number in App.tsx lines 18-22. -/
structure AirportRaw where
  iata : String
  name : String
  city : String
  state : String
  country : String
  latitude : String
  longitude : String
deriving DecidableEq

/-- Airport after field coercion (interface Airport, App.tsx lines 38-46). -/
structure Airport where
  iata : String
  name : String
  city : String
  state : String
  country : String
  latitude : ℚ
  longitude : ℚ
deriving DecidableEq

/-- Flight record (interface Flight, App.tsx lines 52-56) after the count
coercion on lines 9-12. -/
structure Flight where
  origin : String
  destination : String
  count : ℚ
deriving DecidableEq

/-- Airport with its aggregate flow attached (interface
AirportWithTotalFlights, App.tsx lines 48-50). -/
structure AirportWithTotalFlights extends Airport where
  flights : ℚ
deriving DecidableEq

/-- Value returned by the filter callback on App.tsx line 16: the callback
is a curried arrow, so for each airport it returns a closure, and
Array.prototype.filter coerces what the callback returns with ToBoolean. -/
inductive JsVal where
  | vBool : Bool → JsVal
  | vClosure : (AirportRaw → Bool) → JsVal

/-- JavaScript ToBoolean restricted to the values a callback here can
return: every function object is truthy. -/
def jsTruthy : JsVal → Bool
  | JsVal.vBool b => b
  | JsVal.vClosure _ => true

/-- Predicate of the inner arrow on App.tsx line 16 (the inner binder
shadows the outer one, so the lookup uses the inner airport): does any
flight list this airport's iata as origin or destination. -/
def hasAnyFlight (flights : List Flight) (a : AirportRaw) : Bool :=
  (flights.find? (fun f => f.origin == a.iata || f.destination == a.iata)).isSome

/-- The callback passed to filter on App.tsx line 16: a curried arrow
that returns the inner closure instead of a boolean. -/
def removeAirportsCallback (flights : List Flight) (_a : AirportRaw) : JsVal :=
  JsVal.vClosure (hasAnyFlight flights)

/-- Number coercion of the latitude and longitude strings (App.tsx lines
18-22), parameterized by the numeric parse function. -/
def coerceAirport (num : String → ℚ) (a : AirportRaw) : Airport :=
  { iata := a.iata, name := a.name, city := a.city, state := a.state,
    country := a.country, latitude := num a.latitude, longitude := num a.longitude }

/-- The airports constant (App.tsx lines 14-22): the filter step followed
by the coercion map. -/
def airports (num : String → ℚ) (flights : List Flight) (raws : List AirportRaw) :
    List Airport :=
  (raws.filter (fun a => jsTruthy (removeAirportsCallback flights a))).map (coerceAirport num)

/-- Contribution of one flight to an airport's flightMap entry (App.tsx
lines 24-30): its count is added once when the airport is the origin and
once more when it is the destination. -/
def flightContribution (iata : String) (f : Flight) : ℚ :=
  (if f.origin = iata then f.count else 0) + (if f.destination = iata then f.count else 0)

/-- Denotation of the flightMap accumulation loop (App.tsx lines 24-30)
combined with the fallback to 0 on line 32 for airports no flight
touches: the total count over all flights touching the airport. -/
def flightTotal (flights : List Flight) (iata : String) : ℚ :=
  (flights.map (flightContribution iata)).sum

/-- The map step on App.tsx line 32 attaching the aggregate flow. -/
def withTotal (flights : List Flight) (a : Airport) : AirportWithTotalFlights :=
  { toAirport := a, flights := flightTotal flights a.iata }

/-- airportsWithTotal (App.tsx lines 31-33): attach totals, then keep
only airports with positive aggregate flow. -/
def airportsWithTotal (num : String → ℚ) (flights : List Flight) (raws : List AirportRaw) :
    List AirportWithTotalFlights :=
  ((airports num flights raws).map (withTotal flights)).filter (fun a => decide (a.flights > 0))

/-- states (App.tsx line 36): deduplicated list of the states of the
airports list. -/
def states (as : List Airport) : List String :=
  (as.map (fun a => a.state)).dedup

/-- Edge record built from a flight (App.tsx lines 64-68). -/
structure Link where
  source : String
  target : String
  count : ℚ
deriving DecidableEq

/-- links (App.tsx lines 64-68): one edge per flight, endpoints named by
iata identifiers. -/
def links (flights : List Flight) : List Link :=
  flights.map (fun f => { source := f.origin, target := f.destination, count := f.count })

/-- Modelled from the spec: the scales collaborator provides linear maps
from geographic to canvas coordinates (the linear-scale implementation is
library code not under src). A linear scale maps the domain endpoints d0
and d1 to the range endpoints r0 and r1 affinely. -/
def scaleLinear (d0 d1 r0 r1 x : ℚ) : ℚ :=
  r0 + (x - d0) * (r1 - r0) / (d1 - d0)

/-- scaleLatitude (App.tsx line 86): domain 24.2 to 49.8, range height to
0 with height = 720 (App.tsx line 59). -/
def scaleLatitude (lat : ℚ) : ℚ :=
  scaleLinear 24.2 49.8 720 0 lat

/-- scaleLongitude (App.tsx line 88): domain -66.5 to -125.5, range width
to 0 with width = 1280 (App.tsx line 58). -/
def scaleLongitude (lon : ℚ) : ℚ :=
  scaleLinear (-66.5) (-125.5) 1280 0 lon

/-- Anchor accessor of the forceX positional force (App.tsx line 99). -/
def forceXTarget (a : Airport) : ℚ := scaleLongitude a.longitude

/-- Anchor accessor of the forceY positional force (App.tsx line 100). -/
def forceYTarget (a : Airport) : ℚ := scaleLatitude a.latitude

/-- Mutable physical state of a simulated node (spec section 3): current
position, current velocity, optional pin position. -/
structure Particle where
  x : ℚ
  y : ℚ
  vx : ℚ
  vy : ℚ
  fx : Option ℚ
  fy : Option ℚ
deriving DecidableEq

/-- Modelled from the spec: default strength of the positional anchor
force (App.tsx lines 99-100 use the library default; the force-library
source is not under src). Each tick it nudges a particle a small fraction
of the distance toward its anchor (spec section 4.3). -/
def anchorStrength : ℚ := 1 / 10

/-- Modelled from the spec: the friction coefficient applied every tick
(spec sections 3 and 4.4; the library default 0.4, also the value used in
the spec scenarios of section 8). -/
def velocityDecay : ℚ := 2 / 5

/-- Modelled from the spec: velocity delta the positional anchor force
adds along x in one tick at a given alpha, proportional to the distance
from the scaled anchor (spec section 4.3). -/
def forceXDelta (alpha : ℚ) (a : Airport) (p : Particle) : ℚ :=
  (forceXTarget a - p.x) * anchorStrength * alpha

/-- Modelled from the spec: velocity delta the positional anchor force
adds along y in one tick at a given alpha (spec section 4.3). -/
def forceYDelta (alpha : ℚ) (a : Airport) (p : Particle) : ℚ :=
  (forceYTarget a - p.y) * anchorStrength * alpha

/-- Modelled from the spec: one integration step of the simulation loop
(spec section 4.4), for one particle. dvx and dvy are the summed force
contributions of the tick. For every non-pinned coordinate the velocity
picks up the force delta, is scaled by the friction coefficient, and is
added to the position; a pinned coordinate is forced to the pin and its
velocity zeroed. -/
def tickParticle (vd dvx dvy : ℚ) (p : Particle) : Particle :=
  { x := match p.fx with | some px => px | none => p.x + (p.vx + dvx) * vd
    vx := match p.fx with | some _ => 0 | none => (p.vx + dvx) * vd
    y := match p.fy with | some py => py | none => p.y + (p.vy + dvy) * vd
    vy := match p.fy with | some _ => 0 | none => (p.vy + dvy) * vd
    fx := p.fx
    fy := p.fy }

/-- Iterated integration steps, one per entry of the list of per-tick
summed force deltas (the deltas are universally quantified in the
theorems, standing for arbitrary active-force magnitudes). -/
def tickN (vd : ℚ) (ds : List (ℚ × ℚ)) (p : Particle) : Particle :=
  ds.foldl (fun q d => tickParticle vd d.1 d.2 q) p

/-- The five force objects constructed at App.tsx lines 91-100. -/
inductive ForceObj where
  | forceLink
  | forceNode
  | forceCenter
  | forceX
  | forceY
deriving DecidableEq

/-- The five named force slots of the simulation (App.tsx lines 161-168
and 173-181): a slot holds none when the force was set to null. -/
structure SimForces where
  link : Option ForceObj
  charge : Option ForceObj
  center : Option ForceObj
  x : Option ForceObj
  y : Option ForceObj
deriving DecidableEq

/-- Simulation state the App mutates: force slots, the alpha target, and
whether restart has been called. -/
structure SimState where
  forces : SimForces
  alphaTarget : ℚ
  restarted : Bool
deriving DecidableEq

/-- Force slots right after the simulation is built (App.tsx lines
161-168). -/
def initialForces : SimForces :=
  { link := some ForceObj.forceLink, charge := some ForceObj.forceNode,
    center := some ForceObj.forceCenter, x := none, y := none }

/-- Simulation state before the mount effect runs: the library's resting
alpha target is 0 and restart has not been called. -/
def initialSimState : SimState :=
  { forces := initialForces, alphaTarget := 0, restarted := false }

/-- The createEffect body (App.tsx lines 173-181): reassigns all five
force slots from the toggleMap signal (true means map mode, false means
network mode), then sets alphaTarget to 1 and restarts. -/
def modeEffect (toggleMap : Bool) (_s : SimState) : SimState :=
  { forces :=
      { link := if toggleMap then none else some ForceObj.forceLink,
        charge := if toggleMap then none else some ForceObj.forceNode,
        center := if toggleMap then none else some ForceObj.forceCenter,
        x := if toggleMap then some ForceObj.forceX else none,
        y := if toggleMap then some ForceObj.forceY else none },
    alphaTarget := 1,
    restarted := true }

/-- The drag event fields the handlers read (App.tsx lines 103-118):
whether another gesture is still active, the pointer position, and the
dragged subject. -/
structure DragEvent where
  active : Bool
  x : ℚ
  y : ℚ
  subject : Particle

/-- dragstarted (App.tsx lines 103-107): when no other gesture is active,
set alphaTarget to 0.3 and restart; pin the subject at its current
position. -/
def dragstarted (event : DragEvent) (sim : SimState) : SimState × Particle :=
  ( if event.active then sim else { sim with alphaTarget := 0.3, restarted := true },
    { event.subject with fx := some event.subject.x, fy := some event.subject.y } )

/-- dragged (App.tsx lines 109-112): move the pin to the pointer. -/
def dragged (event : DragEvent) : Particle :=
  { event.subject with fx := some event.x, fy := some event.y }

/-- dragended (App.tsx lines 114-118): when no other gesture is active,
set alphaTarget to 0.7; clear the subject's pin. -/
def dragended (event : DragEvent) (sim : SimState) : SimState × Particle :=
  ( if event.active then sim else { sim with alphaTarget := 0.7 },
    { event.subject with fx := none, fy := none } )

/-- The user interactions that can reassign the alpha target after mount:
a toggle click re-running the mode effect, and the three drag handlers. -/
inductive UiEvent where
  | modeToggle (toggleMap : Bool)
  | dragStartEv (event : DragEvent)
  | dragMoveEv (event : DragEvent)
  | dragEndEv (event : DragEvent)

/-- Effect of one event on the simulation state (dragged touches only the
particle, never the simulation). -/
def stepEvent (sim : SimState) : UiEvent → SimState
  | UiEvent.modeToggle b => modeEffect b sim
  | UiEvent.dragStartEv e => (dragstarted e sim).1
  | UiEvent.dragMoveEv _ => sim
  | UiEvent.dragEndEv e => (dragended e sim).1

/-- Simulation state after mount (the effect has run once with the
initial toggleMap value false, App.tsx lines 171-181) followed by a
sequence of user events. -/
def runEvents (evs : List UiEvent) : SimState :=
  evs.foldl stepEvent (modeEffect false initialSimState)

/-- Construction error for link resolution (spec section 7). -/
inductive LinkError where
  | missingNode (id : String)
deriving DecidableEq

/-- A link resolved into direct node references (spec section 3). -/
structure ResolvedLink where
  source : AirportWithTotalFlights
  target : AirportWithTotalFlights
  count : ℚ

/-- Modelled from the spec: construction-time resolution of the edges
into direct node references by the link force (the forceLink internals
are library code not under src). An endpoint identifier absent from the
node set is a fatal MissingNodeError and an edge is never dropped (spec
sections 3 and 7); the id accessor is the iata field (App.tsx line 94). -/
def resolveLinks (nodes : List AirportWithTotalFlights) :
    List Link → Except LinkError (List ResolvedLink)
  | [] => Except.ok []
  | l :: ls =>
    match nodes.find? (fun a => a.iata == l.source) with
    | none => Except.error (LinkError.missingNode l.source)
    | some s =>
      match nodes.find? (fun a => a.iata == l.target) with
      | none => Except.error (LinkError.missingNode l.target)
      | some t =>
        match resolveLinks nodes ls with
        | Except.error e => Except.error e
        | Except.ok rs => Except.ok ({ source := s, target := t, count := l.count } :: rs)

/-- Concrete particle used in witnesses. -/
def sampleParticle : Particle := { x := 0, y := 0, vx := 0, vy := 0, fx := none, fy := none }

/-- Concrete single-gesture drag event used in witnesses. -/
def sampleEvent : DragEvent := { active := false, x := 100, y := 100, subject := sampleParticle }

/-- Concrete pinned particle used in witnesses. -/
def pinnedSample : Particle := { x := 5, y := 6, vx := 1, vy := 2, fx := some 100, fy := some 200 }

/-- Concrete airport rows and flight used in witnesses. -/
def jfkRaw : AirportRaw :=
  { iata := "JFK", name := "John F Kennedy International", city := "New York",
    state := "NY", country := "USA", latitude := "40.6", longitude := "-73.8" }

def laxRaw : AirportRaw :=
  { iata := "LAX", name := "Los Angeles International", city := "Los Angeles",
    state := "CA", country := "USA", latitude := "33.9", longitude := "-118.4" }

def sampleFlight : Flight := { origin := "JFK", destination := "LAX", count := 50 }

def sampleLink : Link := { source := "JFK", target := "LAX", count := 50 }

def sampleAirport : Airport :=
  { iata := "JFK", name := "John F Kennedy International", city := "New York",
    state := "NY", country := "USA", latitude := 40.6, longitude := -73.8 }

/-- Trivial numeric parse function used in witnesses. -/
def numZero : String → ℚ := fun _ => 0

/-! Helper lemmas shared by several claims. -/

lemma filter_keeps_all (flights : List Flight) (raws : List AirportRaw) :
    raws.filter (fun a => jsTruthy (removeAirportsCallback flights a)) = raws :=
  List.filter_eq_self.mpr (fun _ _ => rfl)

lemma airports_eq_map (num : String → ℚ) (flights : List Flight) (raws : List AirportRaw) :
    airports num flights raws = raws.map (coerceAirport num) := by
  unfold airports
  rw [filter_keeps_all]

lemma mem_airports (num : String → ℚ) (flights : List Flight) (raws : List AirportRaw)
    (a : AirportRaw) (ha : a ∈ raws) :
    coerceAirport num a ∈ airports num flights raws := by
  rw [airports_eq_map]
  exact List.mem_map_of_mem _ ha

lemma flightContribution_nonneg (iata : String) (f : Flight) (h : 0 ≤ f.count) :
    0 ≤ flightContribution iata f := by
  unfold flightContribution
  have h1 : 0 ≤ (if f.origin = iata then f.count else 0) := by
    by_cases hc : f.origin = iata <;> simp [hc, h]
  have h2 : 0 ≤ (if f.destination = iata then f.count else 0) := by
    by_cases hc : f.destination = iata <;> simp [hc, h]
  linarith

lemma flightContribution_pos (iata : String) (f : Flight) (h : 0 < f.count)
    (hm : f.origin = iata ∨ f.destination = iata) : 0 < flightContribution iata f := by
  unfold flightContribution
  have h1 : 0 ≤ (if f.origin = iata then f.count else 0) := by
    by_cases hc : f.origin = iata <;> simp [hc, le_of_lt h]
  have h2 : 0 ≤ (if f.destination = iata then f.count else 0) := by
    by_cases hc : f.destination = iata <;> simp [hc, le_of_lt h]
  rcases hm with hm | hm
  · rw [if_pos hm]
    linarith
  · rw [if_pos hm]
    linarith

lemma flightTotal_pos (flights : List Flight) (iata : String)
    (hpos : ∀ f ∈ flights, 0 < f.count)
    (h : ∃ f ∈ flights, f.origin = iata ∨ f.destination = iata) :
    0 < flightTotal flights iata := by
  obtain ⟨f, hf, hm⟩ := h
  have hx : flightContribution iata f ∈ flights.map (flightContribution iata) :=
    List.mem_map_of_mem _ hf
  have hle : flightContribution iata f ≤ (flights.map (flightContribution iata)).sum := by
    apply List.single_le_sum _ _ hx
    intro q hq
    obtain ⟨g, hg, rfl⟩ := List.mem_map.mp hq
    exact flightContribution_nonneg _ _ (le_of_lt (hpos g hg))
  have hc := flightContribution_pos iata f (hpos f hf) hm
  unfold flightTotal
  linarith

lemma mem_airportsWithTotal (num : String → ℚ) (flights : List Flight)
    (raws : List AirportRaw) (a : AirportRaw) (ha : a ∈ raws)
    (hpos : 0 < flightTotal flights a.iata) :
    withTotal flights (coerceAirport num a) ∈ airportsWithTotal num flights raws := by
  unfold airportsWithTotal
  apply List.mem_filter.mpr
  refine ⟨List.mem_map_of_mem _ (mem_airports num flights raws a ha), ?_⟩
  simpa [withTotal, coerceAirport] using hpos

/-! Claim C1: the code sets alphaTarget to 0.3 on drag start and to 0.7
on drag end, so the value set at drag end is strictly greater, not
strictly less, than the value set at drag start. -/

/-- C1 counterexample: for a concrete single-gesture drag (event.active
false at both ends) on the post-mount simulation state, drag start sets
the alpha target to 0.3 and drag end sets it to 0.7, so the alpha target
set when the drag ends is not strictly less than the alpha target set
when the drag starts. -/
theorem dragEnd_target_not_lt_dragStart_target :
    (dragstarted sampleEvent (modeEffect false initialSimState)).1.alphaTarget = 0.3 ∧
    (dragended sampleEvent
      (dragstarted sampleEvent (modeEffect false initialSimState)).1).1.alphaTarget = 0.7 ∧
    ¬ ((dragended sampleEvent
        (dragstarted sampleEvent (modeEffect false initialSimState)).1).1.alphaTarget <
      (dragstarted sampleEvent (modeEffect false initialSimState)).1.alphaTarget) := by
  refine ⟨rfl, rfl, ?_⟩
  norm_num [dragstarted, dragended, sampleEvent]

/-- C1 amended: for every drag gesture whose start and end are the only
active gesture, the alpha target set when the drag ends (0.7) is strictly
greater than the alpha target set when the drag starts (0.3): in this
code drag end raises the energy target relative to drag start. -/
theorem dragStart_target_lt_dragEnd_target (e1 e2 : DragEvent) (s1 s2 : SimState)
    (h1 : e1.active = false) (h2 : e2.active = false) :
    (dragstarted e1 s1).1.alphaTarget < (dragended e2 s2).1.alphaTarget := by
  norm_num [dragstarted, dragended, h1, h2]

/-- C1 amended witness: concrete instance of the amended claim. -/
theorem dragStart_target_lt_dragEnd_target_witness :
    (dragstarted sampleEvent initialSimState).1.alphaTarget <
      (dragended sampleEvent initialSimState).1.alphaTarget :=
  dragStart_target_lt_dragEnd_target sampleEvent sampleEvent initialSimState initialSimState
    rfl rfl

/-! Claim C2: the mode-switch effect. -/

/-- C2: selecting map mode (toggleMap true) leaves exactly the positional
anchor forces in the x and y slots with link, charge and center cleared;
selecting network mode (toggleMap false) leaves exactly the link, charge
and center forces with the positional anchors cleared; either transition
sets the alpha target to 1 and restarts the simulation. -/
theorem modeSwitch_force_sets (s t : SimState) :
    (modeEffect true s).forces =
      { link := none, charge := none, center := none,
        x := some ForceObj.forceX, y := some ForceObj.forceY } ∧
    (modeEffect false t).forces =
      { link := some ForceObj.forceLink, charge := some ForceObj.forceNode,
        center := some ForceObj.forceCenter, x := none, y := none } ∧
    (modeEffect true s).alphaTarget = 1 ∧
    (modeEffect false t).alphaTarget = 1 ∧
    (modeEffect true s).restarted = true ∧
    (modeEffect false t).restarted = true :=
  ⟨rfl, rfl, rfl, rfl, rfl, rfl⟩

/-! Claim C6: idempotence of the mode switch. -/

/-- C6: running the mode-switch effect twice with the same toggle value
leaves the active force set identical to running it once. -/
theorem modeSwitch_idempotent (b : Bool) (s : SimState) :
    (modeEffect b (modeEffect b s)).forces = (modeEffect b s).forces := rfl

/-! Claim C9: the airports filter keeps every row. -/

/-- C9: the filter predicate on App.tsx line 16 is a curried arrow whose
returned closure is always truthy, so the filter removes no airport:
the airports list is exactly the coerced input rows, and the states list
for the color scale is built from all input rows, including airports that
are never simulated. -/
theorem remove_filter_keeps_every_row (num : String → ℚ) (flights : List Flight)
    (raws : List AirportRaw) :
    (∀ a : AirportRaw, jsTruthy (removeAirportsCallback flights a) = true) ∧
    airports num flights raws = raws.map (coerceAirport num) ∧
    (∀ s : String, s ∈ states (airports num flights raws) ↔ ∃ a ∈ raws, a.state = s) := by
  refine ⟨fun _ => rfl, airports_eq_map num flights raws, fun s => ?_⟩
  rw [airports_eq_map]
  unfold states
  rw [List.mem_dedup, List.mem_map]
  constructor
  · rintro ⟨b, hb, rfl⟩
    obtain ⟨a, ha, rfl⟩ := List.mem_map.mp hb
    exact ⟨a, ha, rfl⟩
  · rintro ⟨a, ha, rfl⟩
    exact ⟨coerceAirport num a, List.mem_map_of_mem _ ha, rfl⟩

/-! Claim C10: every reachable alpha-target assignment after mount. -/

lemma alphaTarget_invariant (evs : List UiEvent) :
    ∀ s : SimState, (s.alphaTarget = 1 ∨ s.alphaTarget = 0.3 ∨ s.alphaTarget = 0.7) →
      ((evs.foldl stepEvent s).alphaTarget = 1 ∨ (evs.foldl stepEvent s).alphaTarget = 0.3 ∨
        (evs.foldl stepEvent s).alphaTarget = 0.7) := by
  induction evs with
  | nil => intro s hs; simpa using hs
  | cons e evs ih =>
    intro s hs
    apply ih
    cases e with
    | modeToggle b => left; rfl
    | dragStartEv ev =>
      by_cases h : ev.active = true
      · simpa [stepEvent, dragstarted, h] using hs
      · right; left
        simp [stepEvent, dragstarted, h]
    | dragMoveEv ev => simpa [stepEvent] using hs
    | dragEndEv ev =>
      by_cases h : ev.active = true
      · simpa [stepEvent, dragended, h] using hs
      · right; right
        simp [stepEvent, dragended, h]

/-- C10: after the component mounts (the mode effect runs once at startup
and sets the alpha target to 1), every sequence of mode toggles and drag
events leaves the alpha target at 1, 0.3 or 0.7; it is therefore always
at least 0.3 and never returns to the resting value 0. -/
theorem alphaTarget_never_resting (evs : List UiEvent) :
    ((runEvents evs).alphaTarget = 1 ∨ (runEvents evs).alphaTarget = 0.3 ∨
      (runEvents evs).alphaTarget = 0.7) ∧
    0.3 ≤ (runEvents evs).alphaTarget ∧ (runEvents evs).alphaTarget ≠ 0 := by
  have h := alphaTarget_invariant evs (modeEffect false initialSimState) (Or.inl rfl)
  unfold runEvents
  refine ⟨h, ?_, ?_⟩
  · rcases h with h | h | h <;> rw [h] <;> norm_num
  · rcases h with h | h | h <;> rw [h] <;> norm_num

/-! Claim C3: link endpoints resolve in the simulated particle store. -/

/-- C3: when every flight's origin and destination identifier appears in
the airports dataset and every flight has a positive count, both
endpoints of every constructed link resolve to airports present in the
simulated set airportsWithTotal (no dangling identifiers). -/
theorem links_endpoints_resolve (num : String → ℚ) (flights : List Flight)
    (raws : List AirportRaw)
    (hpos : ∀ f ∈ flights, 0 < f.count)
    (horig : ∀ f ∈ flights, ∃ a ∈ raws, a.iata = f.origin)
    (hdest : ∀ f ∈ flights, ∃ a ∈ raws, a.iata = f.destination) :
    ∀ l ∈ links flights,
      (∃ w ∈ airportsWithTotal num flights raws, w.iata = l.source) ∧
      (∃ w ∈ airportsWithTotal num flights raws, w.iata = l.target) := by
  intro l hl
  obtain ⟨f, hf, rfl⟩ := List.mem_map.mp hl
  constructor
  · obtain ⟨a, haRaw, haIata⟩ := horig f hf
    refine ⟨withTotal flights (coerceAirport num a), ?_, ?_⟩
    · apply mem_airportsWithTotal num flights raws a haRaw
      exact flightTotal_pos flights a.iata hpos ⟨f, hf, Or.inl haIata.symm⟩
    · exact haIata
  · obtain ⟨a, haRaw, haIata⟩ := hdest f hf
    refine ⟨withTotal flights (coerceAirport num a), ?_, ?_⟩
    · apply mem_airportsWithTotal num flights raws a haRaw
      exact flightTotal_pos flights a.iata hpos ⟨f, hf, Or.inr haIata.symm⟩
    · exact haIata

/-- C3 witness: concrete two-airport, one-flight instance, evaluated at
the single constructed link. -/
theorem links_endpoints_resolve_witness :
    (∃ w ∈ airportsWithTotal numZero [sampleFlight] [jfkRaw, laxRaw],
      w.iata = sampleLink.source) ∧
    (∃ w ∈ airportsWithTotal numZero [sampleFlight] [jfkRaw, laxRaw],
      w.iata = sampleLink.target) :=
  links_endpoints_resolve numZero [sampleFlight] [jfkRaw, laxRaw]
    (by intro f hf; rw [List.mem_singleton] at hf; subst hf; norm_num [sampleFlight])
    (by
      intro f hf; rw [List.mem_singleton] at hf; subst hf
      exact ⟨jfkRaw, List.mem_cons_self _ _, rfl⟩)
    (by
      intro f hf; rw [List.mem_singleton] at hf; subst hf
      exact ⟨laxRaw, List.mem_cons_of_mem _ (List.mem_cons_self _ _), rfl⟩)
    sampleLink (List.mem_singleton_self _)

/-! Claim C5: inclusion in the simulated set is equivalent to positive
aggregate flow. -/

/-- C5: an airport row of the input dataset is included in the simulated
set airportsWithTotal exactly when its aggregate flow (sum of the counts
of all flights listing it as origin plus all flights listing it as
destination) is strictly positive. -/
theorem simulated_iff_positive_flow (num : String → ℚ) (flights : List Flight)
    (raws : List AirportRaw) (a : AirportRaw) (ha : a ∈ raws) :
    (withTotal flights (coerceAirport num a) ∈ airportsWithTotal num flights raws) ↔
      0 < flightTotal flights a.iata := by
  constructor
  · intro hmem
    have h := (List.mem_filter.mp hmem).2
    simpa [withTotal, coerceAirport] using h
  · intro hpos
    exact mem_airportsWithTotal num flights raws a ha hpos

/-- C5 witness: concrete instance at an airport with one flight. -/
theorem simulated_iff_positive_flow_witness :
    (withTotal [sampleFlight] (coerceAirport numZero jfkRaw) ∈
        airportsWithTotal numZero [sampleFlight] [jfkRaw, laxRaw]) ↔
      0 < flightTotal [sampleFlight] jfkRaw.iata :=
  simulated_iff_positive_flow numZero [sampleFlight] [jfkRaw, laxRaw] jfkRaw
    (List.mem_cons_self _ _)

/-! Claim C4: pinned particles stay exactly at their pin. -/

lemma tickParticle_pinned (vd dvx dvy px py : ℚ) (p : Particle)
    (hx : p.fx = some px) (hy : p.fy = some py) :
    (tickParticle vd dvx dvy p).x = px ∧ (tickParticle vd dvx dvy p).y = py ∧
    (tickParticle vd dvx dvy p).fx = some px ∧ (tickParticle vd dvx dvy p).fy = some py := by
  simp [tickParticle, hx, hy]

lemma tickN_pinned_aux (vd px py : ℚ) (ds : List (ℚ × ℚ)) :
    ∀ p : Particle, p.fx = some px → p.fy = some py → p.x = px → p.y = py →
      (tickN vd ds p).x = px ∧ (tickN vd ds p).y = py := by
  induction ds with
  | nil => intro p _ _ hx hy; exact ⟨hx, hy⟩
  | cons d ds ih =>
    intro p hfx hfy _ _
    have h := tickParticle_pinned vd d.1 d.2 px py p hfx hfy
    exact ih (tickParticle vd d.1 d.2 p) h.2.2.1 h.2.2.2 h.1 h.2.1

/-- C4: while a particle is pinned at (px, py), its position after any
positive number of integration steps equals exactly the pin, for every
sequence of per-tick force deltas (arbitrary force magnitudes); and an
unpinned particle can still be moved by a force delta. -/
theorem pinned_position_invariant (vd px py : ℚ) (p : Particle) (ds : List (ℚ × ℚ))
    (hvd : 0 < vd) (hx : p.fx = some px) (hy : p.fy = some py) (hne : ds ≠ []) :
    ((tickN vd ds p).x = px ∧ (tickN vd ds p).y = py) ∧
    ∃ (dvx dvy : ℚ) (q : Particle), q.fx = none ∧ (tickParticle vd dvx dvy q).x ≠ q.x := by
  constructor
  · cases ds with
    | nil => exact absurd rfl hne
    | cons d ds =>
      have h := tickParticle_pinned vd d.1 d.2 px py p hx hy
      exact tickN_pinned_aux vd px py ds (tickParticle vd d.1 d.2 p) h.2.2.1 h.2.2.2 h.1 h.2.1
  · refine ⟨1 / vd, 0, sampleParticle, rfl, ?_⟩
    have hvd' : vd ≠ 0 := ne_of_gt hvd
    simp [tickParticle, sampleParticle, hvd']

/-- C4 witness: a particle pinned at (100, 200) stays there across a
concrete tick, while unpinned particles can move. -/
theorem pinned_position_invariant_witness :
    ((tickN (2/5) [(3, 4)] pinnedSample).x = 100 ∧ (tickN (2/5) [(3, 4)] pinnedSample).y = 200) ∧
    ∃ (dvx dvy : ℚ) (q : Particle),
      q.fx = none ∧ (tickParticle (2/5) dvx dvy q).x ≠ q.x :=
  pinned_position_invariant (2/5) 100 200 pinnedSample [(3, 4)] (by norm_num) rfl rfl
    (List.cons_ne_nil _ _)

/-! Claim C7: the positional anchor targets in map mode. -/

/-- C7: the positional anchor of every airport is its fixed geographic
coordinate mapped through the geo-to-canvas scales (the x anchor is
scaleLongitude of the longitude, the y anchor is scaleLatitude of the
latitude), and one tick of the positional anchor force at a given alpha
moves an unpinned resting particle by the fraction alpha / 25 of its
distance toward the scaled coordinate, strictly decreasing the distance
when it is nonzero. -/
theorem mapMode_anchor_nudge (alpha : ℚ) (a : Airport) (p : Particle)
    (hfx : p.fx = none) (hfy : p.fy = none) (hvx : p.vx = 0) (hvy : p.vy = 0)
    (h0 : 0 < alpha) (h1 : alpha ≤ 1) :
    forceXTarget a = scaleLongitude a.longitude ∧
    forceYTarget a = scaleLatitude a.latitude ∧
    (tickParticle velocityDecay (forceXDelta alpha a p) (forceYDelta alpha a p) p).x =
      p.x + (scaleLongitude a.longitude - p.x) * (alpha / 25) ∧
    (tickParticle velocityDecay (forceXDelta alpha a p) (forceYDelta alpha a p) p).y =
      p.y + (scaleLatitude a.latitude - p.y) * (alpha / 25) ∧
    (scaleLongitude a.longitude ≠ p.x →
      |scaleLongitude a.longitude -
          (tickParticle velocityDecay (forceXDelta alpha a p) (forceYDelta alpha a p) p).x| <
        |scaleLongitude a.longitude - p.x|) := by
  have hx : (tickParticle velocityDecay (forceXDelta alpha a p) (forceYDelta alpha a p) p).x =
      p.x + (scaleLongitude a.longitude - p.x) * (alpha / 25) := by
    simp only [tickParticle, hfx, hvx, forceXDelta, forceXTarget, anchorStrength, velocityDecay]
    ring
  have hy : (tickParticle velocityDecay (forceXDelta alpha a p) (forceYDelta alpha a p) p).y =
      p.y + (scaleLatitude a.latitude - p.y) * (alpha / 25) := by
    simp only [tickParticle, hfy, hvy, forceYDelta, forceYTarget, anchorStrength, velocityDecay]
    ring
  refine ⟨rfl, rfl, hx, hy, ?_⟩
  intro hne
  rw [hx]
  have key : scaleLongitude a.longitude -
      (p.x + (scaleLongitude a.longitude - p.x) * (alpha / 25)) =
      (scaleLongitude a.longitude - p.x) * (1 - alpha / 25) := by ring
  rw [key, abs_mul]
  have h2 : |(1 : ℚ) - alpha / 25| < 1 := by
    rw [abs_lt]
    constructor <;> nlinarith
  have h3 : 0 < |scaleLongitude a.longitude - p.x| := abs_pos.mpr (sub_ne_zero.mpr hne)
  exact mul_lt_of_lt_one_right h3 h2

/-- C7 witness: concrete instance at a sample airport and a resting
particle at the origin with alpha 1. -/
theorem mapMode_anchor_nudge_witness :
    forceXTarget sampleAirport = scaleLongitude sampleAirport.longitude ∧
    forceYTarget sampleAirport = scaleLatitude sampleAirport.latitude ∧
    (tickParticle velocityDecay (forceXDelta 1 sampleAirport sampleParticle)
        (forceYDelta 1 sampleAirport sampleParticle) sampleParticle).x =
      sampleParticle.x +
        (scaleLongitude sampleAirport.longitude - sampleParticle.x) * (1 / 25) ∧
    (tickParticle velocityDecay (forceXDelta 1 sampleAirport sampleParticle)
        (forceYDelta 1 sampleAirport sampleParticle) sampleParticle).y =
      sampleParticle.y +
        (scaleLatitude sampleAirport.latitude - sampleParticle.y) * (1 / 25) ∧
    (scaleLongitude sampleAirport.longitude ≠ sampleParticle.x →
      |scaleLongitude sampleAirport.longitude -
          (tickParticle velocityDecay (forceXDelta 1 sampleAirport sampleParticle)
            (forceYDelta 1 sampleAirport sampleParticle) sampleParticle).x| <
        |scaleLongitude sampleAirport.longitude - sampleParticle.x|) :=
  mapMode_anchor_nudge 1 sampleAirport sampleParticle rfl rfl rfl rfl
    (by norm_num) (by norm_num)

/-! Claim C8: a missing link endpoint is a fatal construction error. -/

lemma resolveLinks_ok_length (nodes : List AirportWithTotalFlights) (ls : List Link) :
    ∀ rs, resolveLinks nodes ls = Except.ok rs → rs.length = ls.length := by
  induction ls with
  | nil =>
    intro rs h
    simp only [resolveLinks] at h
    cases h
    rfl
  | cons l ls ih =>
    intro rs h
    cases hs : nodes.find? (fun a => a.iata == l.source) with
    | none => simp [resolveLinks, hs] at h
    | some s =>
      cases ht : nodes.find? (fun a => a.iata == l.target) with
      | none => simp [resolveLinks, hs, ht] at h
      | some t =>
        cases hr : resolveLinks nodes ls with
        | error e => simp [resolveLinks, hs, ht, hr] at h
        | ok rs2 =>
          simp only [resolveLinks, hs, ht, hr, Except.ok.injEq] at h
          subst h
          simp [ih rs2 hr]

lemma resolveLinks_error_of_missing (nodes : List AirportWithTotalFlights) (ls : List Link)
    (h : ∃ l ∈ ls, (∀ a ∈ nodes, a.iata ≠ l.source) ∨ (∀ a ∈ nodes, a.iata ≠ l.target)) :
    ∃ id, resolveLinks nodes ls = Except.error (LinkError.missingNode id) := by
  induction ls with
  | nil => simp at h
  | cons l ls ih =>
    obtain ⟨l0, hl0, hbad⟩ := h
    cases hs : nodes.find? (fun a => a.iata == l.source) with
    | none => exact ⟨l.source, by simp [resolveLinks, hs]⟩
    | some s =>
      cases ht : nodes.find? (fun a => a.iata == l.target) with
      | none => exact ⟨l.target, by simp [resolveLinks, hs, ht]⟩
      | some t =>
        have hl0tail : l0 ∈ ls := by
          rcases List.mem_cons.mp hl0 with rfl | htail
          · rcases hbad with hb | hb
            · have hmem := List.mem_of_find?_eq_some hs
              have hp := List.find?_some hs
              have heq : s.iata = l0.source := by simpa using hp
              exact absurd heq (hb s hmem)
            · have hmem := List.mem_of_find?_eq_some ht
              have hp := List.find?_some ht
              have heq : t.iata = l0.target := by simpa using hp
              exact absurd heq (hb t hmem)
          · exact htail
        obtain ⟨id, hid⟩ := ih ⟨l0, hl0tail, hbad⟩
        exact ⟨id, by simp [resolveLinks, hs, ht, hid]⟩

/-- C8: if some link references an endpoint identifier absent from the
node set, resolving the links fails with a MissingNodeError naming an
offending identifier; and resolution never silently drops an edge: a
successful resolution returns exactly one resolved link per input link. -/
theorem missingNode_fatal (nodes : List AirportWithTotalFlights) (ls : List Link)
    (h : ∃ l ∈ ls, (∀ a ∈ nodes, a.iata ≠ l.source) ∨ (∀ a ∈ nodes, a.iata ≠ l.target)) :
    (∃ id, resolveLinks nodes ls = Except.error (LinkError.missingNode id)) ∧
    ∀ rs, resolveLinks nodes ls = Except.ok rs → rs.length = ls.length :=
  ⟨resolveLinks_error_of_missing nodes ls h, resolveLinks_ok_length nodes ls⟩

/-- C8 witness: resolving a link over an empty node set fails with a
MissingNodeError. -/
theorem missingNode_fatal_witness :
    (∃ id, resolveLinks [] [sampleLink] = Except.error (LinkError.missingNode id)) ∧
    ∀ rs, resolveLinks [] [sampleLink] = Except.ok rs → rs.length = [sampleLink].length :=
  missingNode_fatal [] [sampleLink]
    ⟨sampleLink, List.mem_singleton_self _, Or.inl (by intro a ha; simp at ha)⟩

end DataVis
